import Mathlib

/-
  Verification of the bloom-host message-bridging daemon.

  Shallow embedding of:

  - src/installer/host/chunked_buffer.cpp  (ChunkedMessageBuffer: base64_decode,
    calculate_sha256, process_chunk)
  - src/src/host/bloom-host.cpp  (pending queue, identity extraction,
    heartbeat loop, stdin frame-length check)
  - src/src/host/platform_utils.cpp  (get_cli_argument)

  Machine integers are modelled as Nat with explicit reductions modulo 2^32
  where the C++ works on 32-bit quantities; byte sequences are List Nat
  (each element < 256 in every real execution, but definitions do not
  assume it); fallible operations return Option.
-/

namespace BloomHost

/-! ## SHA-256 (the OpenSSL SHA256 call in calculate_sha256, modelled as the
    FIPS 180-4 function over byte lists) -/

/-- Truncate a natural number to a 32-bit word. -/
def w32 (n : Nat) : Nat := n % 4294967296

/-- Rotate a 32-bit word right by `n` bits. -/
def rotr (x n : Nat) : Nat := w32 ((x >>> n) ||| (x <<< (32 - n)))

def bsig0 (x : Nat) : Nat := (rotr x 2) ^^^ (rotr x 13) ^^^ (rotr x 22)

def bsig1 (x : Nat) : Nat := (rotr x 6) ^^^ (rotr x 11) ^^^ (rotr x 25)

def ssig0 (x : Nat) : Nat := (rotr x 7) ^^^ (rotr x 18) ^^^ (x >>> 3)

def ssig1 (x : Nat) : Nat := (rotr x 17) ^^^ (rotr x 19) ^^^ (x >>> 10)

def ch (x y z : Nat) : Nat := (x &&& y) ^^^ ((x ^^^ 4294967295) &&& z)

def maj (x y z : Nat) : Nat := (x &&& y) ^^^ (x &&& z) ^^^ (y &&& z)

/-- The 64 SHA-256 round constants, written in decimal. -/
def sha256K : List Nat :=
  [1116352408, 1899447441, 3049323471, 3921009573,
   961987163, 1508970993, 2453635748, 2870763221,
   3624381080, 310598401, 607225278, 1426881987,
   1925078388, 2162078206, 2614888103, 3248222580,
   3835390401, 4022224774, 264347078, 604807628,
   770255983, 1249150122, 1555081692, 1996064986,
   2554220882, 2821834349, 2952996808, 3210313671,
   3336571891, 3584528711, 113926993, 338241895,
   666307205, 773529912, 1294757372, 1396182291,
   1695183700, 1986661051, 2177026350, 2456956037,
   2730485921, 2820302411, 3259730800, 3345764771,
   3516065817, 3600352804, 4094571909, 275423344,
   430227734, 506948616, 659060556, 883997877,
   958139571, 1322822218, 1537002063, 1747873779,
   1955562222, 2024104815, 2227730452, 2361852424,
   2428436474, 2756734187, 3204031479, 3329325298]

/-- The SHA-256 initial hash value, written in decimal. -/
def sha256H0 : List Nat :=
  [1779033703, 3144134277, 1013904242, 2773480762,
   1359893119, 2600822924, 528734635, 1541459225]

/-- Big-endian byte decomposition of `n`, exactly `k` bytes. -/
def beBytes (k n : Nat) : List Nat :=
  match k with
  | 0 => []
  | k + 1 => beBytes k (n >>> 8) ++ [n % 256]

/-- SHA-256 padding: append 0x80, zero bytes up to 56 mod 64, then the
    64-bit big-endian bit length. -/
def sha256pad (msg : List Nat) : List Nat :=
  let l := msg.length
  let zeros := (64 + 55 - (l % 64)) % 64
  msg ++ [0x80] ++ List.replicate zeros 0 ++ beBytes 8 (8 * l)

/-- Group bytes into big-endian 32-bit words. -/
def toWords : List Nat → List Nat
  | b0 :: b1 :: b2 :: b3 :: rest =>
    (((b0 <<< 8 ||| b1) <<< 8 ||| b2) <<< 8 ||| b3) :: toWords rest
  | _ => []

/-- Extend a reversed message schedule by `n` entries. -/
def extendRev : Nat → List Nat → List Nat
  | 0, ws => ws
  | n + 1, ws =>
    let next := w32 (ssig1 (ws.getD 1 0) + ws.getD 6 0 + ssig0 (ws.getD 14 0) + ws.getD 15 0)
    extendRev n (next :: ws)

/-- The message schedule W_0 .. W_63 from the 16 words of one block. -/
def schedule (block : List Nat) : List Nat :=
  (extendRev 48 block.reverse).reverse

/-- One SHA-256 compression round; the state is the 8-word working list. -/
def round1 (st : List Nat) (kw : Nat × Nat) : List Nat :=
  match st with
  | [a, b, c, d, e, f, g, h] =>
    let t1 := w32 (h + bsig1 e + ch e f g + kw.1 + kw.2)
    let t2 := w32 (bsig0 a + maj a b c)
    [w32 (t1 + t2), a, b, c, w32 (d + t1), e, f, g]
  | st => st

/-- Compress one 16-word block into the running hash value. -/
def compress (hv : List Nat) (block : List Nat) : List Nat :=
  let ws := schedule block
  let st := (sha256K.zip ws).foldl round1 hv
  (hv.zip st).map (fun p => w32 (p.1 + p.2))

/-- Split a byte list into 64-byte blocks (structural recursion on a fuel bound). -/
def blocks64Go : Nat → List Nat → List (List Nat)
  | _, [] => []
  | 0, _ => []
  | n + 1, l => l.take 64 :: blocks64Go n (l.drop 64)

def blocks64 (l : List Nat) : List (List Nat) := blocks64Go l.length l

/-- SHA-256 digest of a byte sequence, as its 32 bytes. -/
def sha256 (msg : List Nat) : List Nat :=
  let final := (blocks64 (sha256pad msg)).foldl (fun hv b => compress hv (toWords b)) sha256H0
  final.flatMap (beBytes 4)

/-- Lowercase hex digit, as produced by std::hex on a stringstream. -/
def hexDigit (n : Nat) : Char :=
  "0123456789abcdef".toList.getD n '0'

/-- Two lowercase hex digits of one byte (setw(2) with setfill('0')). -/
def hexByte (b : Nat) : List Char := [hexDigit (b / 16), hexDigit (b % 16)]

/-- ChunkedMessageBuffer::calculate_sha256: lowercase hex SHA-256 of the buffer. -/
def calculate_sha256 (data : List Nat) : String :=
  ⟨(sha256 data).flatMap hexByte⟩

/-! ## base64_decode (ChunkedMessageBuffer::base64_decode) -/

/-- The alphabet string searched by base64_decode. -/
def base64_chars : List Char :=
  "ABCDEFGHIJKLMNOPQRSTUVWXYZabcdefghijklmnopqrstuvwxyz0123456789+/".toList

/-- Index of a character in a list (std::string::find returning npos as none). -/
def charPos : List Char → Char → Option Nat
  | [], _ => none
  | c :: rest, x => if c = x then some 0 else (charPos rest x).map (fun n => n + 1)

/-- The loop of base64_decode: `val` is the 32-bit bit accumulator, `valb` the
    signed bit counter starting at -8; '=' stops the loop, characters outside
    the alphabet are skipped. -/
def base64_decodeGo : List Char → Nat → Int → List Nat
  | [], _, _ => []
  | c :: rest, val, valb =>
    if c = '=' then []
    else
      match charPos base64_chars c with
      | none => base64_decodeGo rest val valb
      | some pos =>
        let val2 := (val <<< 6 + pos) % 4294967296
        let valb2 := valb + 6
        if 0 ≤ valb2 then
          ((val2 >>> valb2.toNat) % 256) :: base64_decodeGo rest val2 (valb2 - 8)
        else
          base64_decodeGo rest val2 valb2

/-- ChunkedMessageBuffer::base64_decode. -/
def base64_decode (encoded : List Char) : List Nat :=
  base64_decodeGo encoded 0 (-8)

/-! ## ChunkedMessageBuffer state and process_chunk -/

inductive ChunkResult
  | INCOMPLETE
  | COMPLETE_VALID
  | COMPLETE_INVALID_CHECKSUM
  | CHUNK_ERROR
deriving DecidableEq

/-- One in-flight chunked payload (struct InProgressMessage). -/
structure InProgressMessage where
  buffer : List Nat
  total_chunks : Nat
  received_chunks : Nat
  expected_size : Nat
deriving DecidableEq

/-- A bloom_chunk envelope as read by process_chunk: each field holds the
    result of chunk.value(key, default), so absent JSON keys appear as the
    defaults "" and 0. -/
structure BloomChunk where
  type : String
  message_id : String
  total_chunks : Nat
  total_size_bytes : Nat
  data : String
  checksum_verify : String
deriving DecidableEq

/-- The active_buffers map (std::map keyed by message id; keys are unique). -/
abbrev BufferMap := List (String × InProgressMessage)

def lookupBuf : BufferMap → String → Option InProgressMessage
  | [], _ => none
  | (k, v) :: rest, id => if k = id then some v else lookupBuf rest id

/-- active_buffers[id] = v : replaces the entry if present, else adds it. -/
def insertBuf : BufferMap → String → InProgressMessage → BufferMap
  | [], id, v => [(id, v)]
  | (k, w) :: rest, id, v =>
    if k = id then (id, v) :: rest else (k, w) :: insertBuf rest id v

/-- active_buffers.erase(it) for the entry with this id. -/
def eraseBuf : BufferMap → String → BufferMap
  | [], _ => []
  | (k, w) :: rest, id => if k = id then rest else (k, w) :: eraseBuf rest id

/-- The three outputs of one process_chunk call: the returned ChunkResult,
    the out_complete_msg parameter (set only on COMPLETE_VALID, as the raw
    bytes of the buffer), and the active_buffers map afterwards. -/
structure ChunkOutcome where
  result : ChunkResult
  out_complete_msg : Option (List Nat)
  state : BufferMap
deriving DecidableEq

/-- ChunkedMessageBuffer::process_chunk. The incoming json msg is modelled by
    its bloom_chunk member: none when msg does not contain "bloom_chunk". -/
def process_chunk (st : BufferMap) (msg : Option BloomChunk) : ChunkOutcome :=
  match msg with
  | none => ⟨ChunkResult.CHUNK_ERROR, none, st⟩
  | some chunk =>
    if chunk.type = "header" then
      let ipm : InProgressMessage :=
        { buffer := [], total_chunks := chunk.total_chunks, received_chunks := 0,
          expected_size := chunk.total_size_bytes }
      ⟨ChunkResult.INCOMPLETE, none, insertBuf st chunk.message_id ipm⟩
    else
      match lookupBuf st chunk.message_id with
      | none => ⟨ChunkResult.CHUNK_ERROR, none, st⟩
      | some ipm =>
        if chunk.type = "data" then
          let decoded := base64_decode chunk.data.toList
          let ipm2 : InProgressMessage :=
            { ipm with buffer := ipm.buffer ++ decoded,
                       received_chunks := ipm.received_chunks + 1 }
          ⟨ChunkResult.INCOMPLETE, none, insertBuf st chunk.message_id ipm2⟩
        else if chunk.type = "footer" then
          let computed := calculate_sha256 ipm.buffer
          if computed ≠ chunk.checksum_verify then
            ⟨ChunkResult.COMPLETE_INVALID_CHECKSUM, none, eraseBuf st chunk.message_id⟩
          else
            ⟨ChunkResult.COMPLETE_VALID, some ipm.buffer, eraseBuf st chunk.message_id⟩
        else
          ⟨ChunkResult.CHUNK_ERROR, none, st⟩

/-- Feed a sequence of messages through process_chunk, collecting the
    (result, out_complete_msg) pair of every call. -/
def chunkResults (st : BufferMap) : List (Option BloomChunk) → List (ChunkResult × Option (List Nat))
  | [] => []
  | m :: rest =>
    let o := process_chunk st m
    (o.result, o.out_complete_msg) :: chunkResults o.state rest

/-- A header chunk as a sender builds it. -/
def mkHeader (id : String) (tc ts : Nat) : BloomChunk :=
  ⟨"header", id, tc, ts, "", ""⟩

/-- A data chunk as a sender builds it. -/
def mkData (id : String) (d : String) : BloomChunk :=
  ⟨"data", id, 0, 0, d, ""⟩

/-- A footer chunk as a sender builds it. -/
def mkFooter (id : String) (cs : String) : BloomChunk :=
  ⟨"footer", id, 0, 0, "", cs⟩

/-! ## Pending queue (bloom-host.cpp: g_pending_messages, MAX_QUEUED_MESSAGES,
    the queueing branch of handle_chrome_message, flush_pending_messages) -/

def MAX_QUEUED_MESSAGES : Nat := 500

/-- The queueing branch of handle_chrome_message when the message cannot be
    forwarded: push if current size < MAX_QUEUED_MESSAGES, else drop.
    The Bool reports acceptance (false = dropped with a QUEUE_FULL log). -/
def enqueue_pending (q : List String) (m : String) : List String × Bool :=
  if q.length < MAX_QUEUED_MESSAGES then (q ++ [m], true) else (q, false)

/-- Enqueue a whole arrival sequence in order. -/
def enqueue_all : List String → List String → List String
  | q, [] => q
  | q, m :: rest => enqueue_all (enqueue_pending q m).1 rest

/-- flush_pending_messages: pop the front repeatedly, forwarding each popped
    message to write_to_service. Returns (forwarded sequence in order, queue
    afterwards). -/
def flush_pending : List String → List String × List String
  | [] => ([], [])
  | m :: rest =>
    let p := flush_pending rest
    (m :: p.1, p.2)

/-! ## Identity late binding (bloom-host.cpp: g_profile_id, g_launch_id,
    identity_resolved, try_extract_identity, try_extract_profile_id_from_raw;
    platform_utils.cpp: get_cli_argument) -/

/-- The identity globals of bloom-host.cpp. -/
structure IdentityState where
  g_profile_id : String
  g_launch_id : String
  identity_resolved : Bool
deriving DecidableEq

/-- The four candidate JSON-pointer paths try_extract_identity probes, with
    the json_value_to_string result at each path (none when msg.at throws
    because the path is absent). -/
structure IdMsg where
  payload_profile_id : Option String
  top_profile_id : Option String
  payload_launch_id : Option String
  top_launch_id : Option String

/-- The candidate loop: take the first present, non-empty stringified value;
    otherwise the candidate stays "". -/
def firstNonEmptyCandidate : List (Option String) → String
  | [] => ""
  | none :: rest => firstNonEmptyCandidate rest
  | some s :: rest => if s = "" then firstNonEmptyCandidate rest else s

def candidate_profile (m : IdMsg) : String :=
  firstNonEmptyCandidate [m.payload_profile_id, m.top_profile_id]

def candidate_launch (m : IdMsg) : String :=
  firstNonEmptyCandidate [m.payload_launch_id, m.top_launch_id]

/-- try_extract_identity of bloom-host.cpp: commits each id only when the
    corresponding global is still empty, and flips identity_resolved (and
    returns true) only when both are set and it was not already resolved. -/
def try_extract_identity (st : IdentityState) (msg : IdMsg) : Bool × IdentityState :=
  let cp := candidate_profile msg
  let cl := candidate_launch msg
  if cp ≠ "" ∧ cl ≠ "" then
    let st1 := if st.g_profile_id = "" then { st with g_profile_id := cp } else st
    let st2 := if st1.g_launch_id = "" then { st1 with g_launch_id := cl } else st1
    if (st2.g_profile_id ≠ "" ∧ st2.g_launch_id ≠ "") ∧ st2.identity_resolved = false then
      (true, { st2 with identity_resolved := true })
    else
      (false, st2)
  else
    (false, st)

/-- Whether pat occurs at the head of s. -/
def headMatches : List Char → List Char → Bool
  | [], _ => true
  | _ :: _, [] => false
  | p :: ps, c :: cs => p = c && headMatches ps cs

/-- std::string::find of a pattern, scanning from index idx. -/
def findSubGo (pat : List Char) : List Char → Nat → Option Nat
  | [], idx => if headMatches pat [] then some idx else none
  | c :: rest, idx =>
    if headMatches pat (c :: rest) then some idx else findSubGo pat rest (idx + 1)

def findSub (s pat : List Char) : Option Nat := findSubGo pat s 0

/-- std::string::find of one character, from a start index (absolute result). -/
def findCharFrom (s : List Char) (c : Char) (start : Nat) : Option Nat :=
  (findSub (s.drop start) [c]).map (fun n => n + start)

/-- The quoted 36-character candidate that try_extract_profile_id_from_raw
    slices out of the raw message text, when all three finds succeed. -/
def raw_candidate (s : List Char) : Option String :=
  match findSub s ("\"profile_id\"".toList) with
  | none => none
  | some pos =>
    match findCharFrom s '"' (pos + 13) with
    | none => none
    | some start0 =>
      let start := start0 + 1
      match findCharFrom s '"' start with
      | none => none
      | some stop => some ⟨(s.drop start).take (stop - start)⟩

/-- The UUID shape test of try_extract_profile_id_from_raw: length 36 with
    hyphens at offsets 8, 13, 18 and 23. -/
def uuid_shaped (c : String) : Bool :=
  c.length = 36 && c.toList.getD 8 ' ' = '-' && c.toList.getD 13 ' ' = '-'
    && c.toList.getD 18 ' ' = '-' && c.toList.getD 23 ' ' = '-'

/-- try_extract_profile_id_from_raw of bloom-host.cpp: best-effort raw-text
    scan; writes g_profile_id (and returns true) only when it is still empty.
    It never touches g_launch_id or identity_resolved. -/
def try_extract_profile_id_from_raw (st : IdentityState) (s : List Char) :
    Bool × IdentityState :=
  match raw_candidate s with
  | none => (false, st)
  | some cand =>
    if uuid_shaped cand then
      if st.g_profile_id = "" then (true, { st with g_profile_id := cand })
      else (false, st)
    else
      (false, st)

/-- PlatformUtils::get_cli_argument scans argv[1..argc-2] for the flag and
    returns the following argument, else "". -/
def get_cli_argumentGo : List String → String → String
  | a :: b :: rest, flag => if a = flag then b else get_cli_argumentGo (b :: rest) flag
  | _, _ => ""

def get_cli_argument (argv : List String) (flag : String) : String :=
  get_cli_argumentGo argv.tail flag

/-- The CLI-identity block at the top of main: when both --profile-id and
    --launch-id are present (non-empty), commit them and mark resolved before
    the stdin loop starts; otherwise leave the globals in their initial state. -/
def startup_identity (argv : List String) : IdentityState :=
  let cli_profile := get_cli_argument argv "--profile-id"
  let cli_launch := get_cli_argument argv "--launch-id"
  if cli_profile ≠ "" ∧ cli_launch ≠ "" then
    ⟨cli_profile, cli_launch, true⟩
  else
    ⟨"", "", false⟩

/-! ## Heartbeat (bloom-host.cpp: heartbeat_loop, write_message_to_chrome) -/

def HEARTBEAT_INTERVAL_SEC : Nat := 10

structure HeartbeatStats where
  messages_sent : Nat
  messages_received : Nat
  pending_queue : Nat
deriving DecidableEq

/-- The json object heartbeat_loop builds each tick. -/
structure HeartbeatMsg where
  type : String
  sequence : Nat
  timestamp : Nat
  stats : HeartbeatStats
deriving DecidableEq

/-- Where a message write goes: write_message_to_chrome (stdout toward the
    extension) or write_to_service (the backend TCP socket). -/
inductive WriteDest
  | toChrome
  | toService
deriving DecidableEq

/-- One iteration of the heartbeat_loop body after the sleep: increment the
    counter, build the HEARTBEAT json, and call write_message_to_chrome.
    The backend_connected argument records whether service_socket holds a
    live socket at that moment; the loop body never consults it. -/
def heartbeat_tick (backend_connected : Bool) (hb_count sent received qdepth timestamp : Nat) :
    Option (HeartbeatMsg × WriteDest) × Nat :=
  let count := hb_count + 1
  (some ({ type := "HEARTBEAT", sequence := count, timestamp := timestamp,
           stats := ⟨sent, received, qdepth⟩ }, WriteDest.toChrome), count)

/-! ## Stdin frame-length check (bloom-host.cpp main loop, MAX_MESSAGE_SIZE) -/

def MAX_MESSAGE_SIZE : Nat := 50 * 1024 * 1024

/-- The length test of the stdin read loop: len == 0 || len > MAX_MESSAGE_SIZE. -/
def stdin_frame_rejected (len : Nat) : Bool :=
  len == 0 || Nat.blt MAX_MESSAGE_SIZE len

/-- What the stdin loop does with a frame of the given declared length:
    a rejected length is logged and skipped (continue), nothing is written
    anywhere; an accepted length is read and passed to handle_chrome_message. -/
inductive StdinFrameAction
  | dropAndContinue
  | deliverToHandler
deriving DecidableEq

def stdin_frame_action (len : Nat) : StdinFrameAction :=
  if stdin_frame_rejected len then StdinFrameAction.dropAndContinue
  else StdinFrameAction.deliverToHandler

/-! ## Handshake state machine -/

/-- Modelled from the spec: the HandshakeCoordinator and its HandshakeState do
    not appear anywhere under src/ (only the phase list in the help text of
    src/installer/host/cli_parser.h); states and transitions follow spec
    section 4.4 verbatim. -/
inductive HandshakeState
  | NONE
  | EXTENSION_READY
  | HOST_READY
  | CONFIRMED
deriving DecidableEq

/-- Modelled from the spec: the inputs that drive the handshake machine:
    receiving extension_ready from the extension, the synchronous host_ready
    reply being sent, a backend connection being established, and any other
    input. -/
inductive HandshakeEvent
  | recvExtensionReady
  | sentHostReady
  | backendEstablished
  | otherInput
deriving DecidableEq

/-- Modelled from the spec: section 4.4 transitions. NONE advances to
    EXTENSION_READY on extension_ready; the synchronous host_ready reply
    advances to HOST_READY; a successful backend connection advances
    HOST_READY to CONFIRMED. extension_ready outside NONE is logged and
    ignored; every other pairing leaves the state unchanged; CONFIRMED is
    terminal. -/
def hsStep : HandshakeState → HandshakeEvent → HandshakeState
  | HandshakeState.NONE, HandshakeEvent.recvExtensionReady => HandshakeState.EXTENSION_READY
  | HandshakeState.EXTENSION_READY, HandshakeEvent.sentHostReady => HandshakeState.HOST_READY
  | HandshakeState.HOST_READY, HandshakeEvent.backendEstablished => HandshakeState.CONFIRMED
  | s, _ => s

/-- Position of a state along NONE, EXTENSION_READY, HOST_READY, CONFIRMED. -/
def hsRank : HandshakeState → Nat
  | HandshakeState.NONE => 0
  | HandshakeState.EXTENSION_READY => 1
  | HandshakeState.HOST_READY => 2
  | HandshakeState.CONFIRMED => 3

/-- Run the machine over a whole input sequence. -/
def hsRun (s : HandshakeState) (evs : List HandshakeEvent) : HandshakeState :=
  evs.foldl hsStep s

/-- ASCII lowering at code-point level, for stating case-insensitivity. -/
def lowerByte (n : Nat) : Nat := if 65 ≤ n ∧ n ≤ 90 then n + 32 else n

/-! ## Helper lemmas about the buffer map and process_chunk -/

theorem lookupBuf_insertBuf_self (st : BufferMap) (id : String) (v : InProgressMessage) :
    lookupBuf (insertBuf st id v) id = some v := by
  induction st with
  | nil => simp [insertBuf, lookupBuf]
  | cons p rest ih =>
    obtain ⟨k, w⟩ := p
    by_cases h : k = id
    · simp [insertBuf, lookupBuf, h]
    · simp [insertBuf, lookupBuf, h, ih]

theorem process_chunk_header_eq (st : BufferMap) (c : BloomChunk) (h : c.type = "header") :
    process_chunk st (some c) =
      ⟨ChunkResult.INCOMPLETE, none,
        insertBuf st c.message_id ⟨[], c.total_chunks, 0, c.total_size_bytes⟩⟩ := by
  simp [process_chunk, h]

theorem process_chunk_data_eq (st : BufferMap) (c : BloomChunk) (ipm : InProgressMessage)
    (h : c.type = "data") (hlk : lookupBuf st c.message_id = some ipm) :
    process_chunk st (some c) =
      ⟨ChunkResult.INCOMPLETE, none,
        insertBuf st c.message_id
          { ipm with buffer := ipm.buffer ++ base64_decode c.data.toList,
                     received_chunks := ipm.received_chunks + 1 }⟩ := by
  have hne : c.type ≠ "header" := by rw [h]; decide
  simp [process_chunk, hne, hlk, h]

theorem process_chunk_footer_eq (st : BufferMap) (c : BloomChunk) (ipm : InProgressMessage)
    (h : c.type = "footer") (hlk : lookupBuf st c.message_id = some ipm) :
    process_chunk st (some c) =
      if calculate_sha256 ipm.buffer = c.checksum_verify then
        ⟨ChunkResult.COMPLETE_VALID, some ipm.buffer, eraseBuf st c.message_id⟩
      else
        ⟨ChunkResult.COMPLETE_INVALID_CHECKSUM, none, eraseBuf st c.message_id⟩ := by
  have hne : c.type ≠ "header" := by rw [h]; decide
  have hnd : c.type ≠ "data" := by rw [h]; decide
  by_cases hcs : calculate_sha256 ipm.buffer = c.checksum_verify
  · simp [process_chunk, hne, hnd, hlk, h, hcs]
  · simp [process_chunk, hne, hnd, hlk, h, hcs]

theorem chunkResults_cons (st : BufferMap) (m : Option BloomChunk)
    (rest : List (Option BloomChunk)) :
    chunkResults st (m :: rest)
      = ((process_chunk st m).result, (process_chunk st m).out_complete_msg)
          :: chunkResults (process_chunk st m).state rest := rfl

/- Claim theorems start here. -/

/-- C4 counterexample: a header chunk whose message_id already has a live
    PartialMessage does not return ERROR: process_chunk returns INCOMPLETE
    (and replaces the entry). -/
theorem C4_counterexample :
    (process_chunk [("m", (⟨[1], 2, 1, 2⟩ : InProgressMessage))]
        (some (mkHeader "m" 3 4))).result = ChunkResult.INCOMPLETE
    ∧ ChunkResult.INCOMPLETE ≠ ChunkResult.CHUNK_ERROR := by
  decide

/-- C4 (amended): every header chunk unconditionally creates or replaces the
    entry for its message_id — a fresh empty buffer with the header's
    total_chunks and total_size_bytes and received_chunks 0 — and returns
    INCOMPLETE; a live entry for the same id is never rejected and there is
    no active-buffer cap. -/
theorem C4_header_always_creates (st : BufferMap) (c : BloomChunk) (h : c.type = "header") :
    process_chunk st (some c) =
      ⟨ChunkResult.INCOMPLETE, none,
        insertBuf st c.message_id ⟨[], c.total_chunks, 0, c.total_size_bytes⟩⟩
    ∧ lookupBuf (process_chunk st (some c)).state c.message_id
        = some ⟨[], c.total_chunks, 0, c.total_size_bytes⟩ := by
  have heq := process_chunk_header_eq st c h
  refine ⟨heq, ?_⟩
  rw [heq]
  exact lookupBuf_insertBuf_self st c.message_id _

/-- C4 witness: the amended statement at a concrete state that already holds
    a live entry for the same id. -/
theorem C4_header_always_creates_witness :
    process_chunk [("m", (⟨[1], 2, 1, 2⟩ : InProgressMessage))] (some (mkHeader "m" 3 4)) =
      ⟨ChunkResult.INCOMPLETE, none,
        insertBuf [("m", (⟨[1], 2, 1, 2⟩ : InProgressMessage))] "m" ⟨[], 3, 0, 4⟩⟩
    ∧ lookupBuf (process_chunk [("m", (⟨[1], 2, 1, 2⟩ : InProgressMessage))]
        (some (mkHeader "m" 3 4))).state "m" = some ⟨[], 3, 0, 4⟩ :=
  C4_header_always_creates [("m", (⟨[1], 2, 1, 2⟩ : InProgressMessage))] (mkHeader "m" 3 4) rfl

/-- C9: for a footer chunk on an existing message id, the result of
    process_chunk is determined solely by comparing the computed digest of
    the accumulated buffer with the supplied checksum; the entry's
    total_chunks, received_chunks and expected_size do not appear in the
    result, so a matching checksum yields COMPLETE_VALID even when
    received_chunks differs from total_chunks. -/
theorem C9_footer_checksum_only (st : BufferMap) (c : BloomChunk) (ipm : InProgressMessage)
    (h : c.type = "footer") (hlk : lookupBuf st c.message_id = some ipm) :
    (process_chunk st (some c)).result =
      if calculate_sha256 ipm.buffer = c.checksum_verify then ChunkResult.COMPLETE_VALID
      else ChunkResult.COMPLETE_INVALID_CHECKSUM := by
  rw [process_chunk_footer_eq st c ipm h hlk]
  by_cases hcs : calculate_sha256 ipm.buffer = c.checksum_verify <;> simp [hcs]

/-- C9 witness: an entry with received_chunks 0 and total_chunks 5 whose
    checksum matches still completes as COMPLETE_VALID. -/
theorem C9_footer_checksum_only_witness :
    (process_chunk [("m", (⟨[], 5, 0, 10⟩ : InProgressMessage))]
        (some (mkFooter "m"
          "e3b0c44298fc1c149afbf4c8996fb92427ae41e4649b934ca495991b7852b855"))).result
      = ChunkResult.COMPLETE_VALID := by
  have h := C9_footer_checksum_only [("m", (⟨[], 5, 0, 10⟩ : InProgressMessage))]
    (mkFooter "m" "e3b0c44298fc1c149afbf4c8996fb92427ae41e4649b934ca495991b7852b855")
    ⟨[], 5, 0, 10⟩ rfl (by decide)
  rw [h]
  decide

/-- C6 counterexample: the uppercase hex form of the digest — equal to the
    computed digest up to letter case, as the code-point comparison in the
    first conjunct shows — is rejected: the comparison in process_chunk is
    case-sensitive, so the result is COMPLETE_INVALID_CHECKSUM, not
    COMPLETE_VALID. -/
theorem C6_counterexample :
    ("E3B0C44298FC1C149AFBF4C8996FB92427AE41E4649B934CA495991B7852B855".toList.map
        (fun c => lowerByte c.toNat))
      = ((calculate_sha256 []).toList.map Char.toNat)
    ∧ (process_chunk [("m", (⟨[], 1, 1, 0⟩ : InProgressMessage))]
        (some (mkFooter "m"
          "E3B0C44298FC1C149AFBF4C8996FB92427AE41E4649B934CA495991B7852B855"))).result
      = ChunkResult.COMPLETE_INVALID_CHECKSUM := by
  constructor <;> decide

/-- C6 (amended): for a footer chunk on an existing message id the supplied
    checksum is compared by exact, case-sensitive string equality against the
    lowercase hex SHA-256 of the accumulated bytes: on exact match the entry
    is deleted and COMPLETE_VALID is returned with the accumulated bytes; on
    any difference — including a differently-cased form of the digest — the
    entry is deleted and COMPLETE_INVALID_CHECKSUM is returned. -/
theorem C6_footer_case_sensitive (st : BufferMap) (c : BloomChunk) (ipm : InProgressMessage)
    (h : c.type = "footer") (hlk : lookupBuf st c.message_id = some ipm) :
    process_chunk st (some c) =
      if calculate_sha256 ipm.buffer = c.checksum_verify then
        ⟨ChunkResult.COMPLETE_VALID, some ipm.buffer, eraseBuf st c.message_id⟩
      else
        ⟨ChunkResult.COMPLETE_INVALID_CHECKSUM, none, eraseBuf st c.message_id⟩ :=
  process_chunk_footer_eq st c ipm h hlk

/-- C6 witness: the exact lowercase digest is accepted, the entry deleted and
    the accumulated bytes returned. -/
theorem C6_footer_case_sensitive_witness :
    process_chunk [("m", (⟨[], 1, 1, 0⟩ : InProgressMessage))]
        (some (mkFooter "m"
          "e3b0c44298fc1c149afbf4c8996fb92427ae41e4649b934ca495991b7852b855"))
      = ⟨ChunkResult.COMPLETE_VALID, some [], []⟩ := by
  have h := C6_footer_case_sensitive [("m", (⟨[], 1, 1, 0⟩ : InProgressMessage))]
    (mkFooter "m" "e3b0c44298fc1c149afbf4c8996fb92427ae41e4649b934ca495991b7852b855")
    ⟨[], 1, 1, 0⟩ rfl (by decide)
  rw [h]
  decide

theorem process_chunk_mkHeader (st : BufferMap) (id : String) (tc ts : Nat) :
    process_chunk st (some (mkHeader id tc ts)) =
      ⟨ChunkResult.INCOMPLETE, none, insertBuf st id ⟨[], tc, 0, ts⟩⟩ :=
  process_chunk_header_eq st (mkHeader id tc ts) rfl

theorem process_chunk_mkData (st : BufferMap) (id d : String) (ipm : InProgressMessage)
    (hlk : lookupBuf st id = some ipm) :
    process_chunk st (some (mkData id d)) =
      ⟨ChunkResult.INCOMPLETE, none,
        insertBuf st id
          ⟨ipm.buffer ++ base64_decode d.toList, ipm.total_chunks,
           ipm.received_chunks + 1, ipm.expected_size⟩⟩ :=
  process_chunk_data_eq st (mkData id d) ipm rfl hlk

theorem process_chunk_mkFooter (st : BufferMap) (id cs : String) (ipm : InProgressMessage)
    (hlk : lookupBuf st id = some ipm) :
    process_chunk st (some (mkFooter id cs)) =
      if calculate_sha256 ipm.buffer = cs then
        ⟨ChunkResult.COMPLETE_VALID, some ipm.buffer, eraseBuf st id⟩
      else
        ⟨ChunkResult.COMPLETE_INVALID_CHECKSUM, none, eraseBuf st id⟩ :=
  process_chunk_footer_eq st (mkFooter id cs) ipm rfl hlk

/-- Processing a run of data chunks for an id with a live entry returns
    INCOMPLETE for each, and leaves an entry whose buffer has grown by the
    concatenated base64-decoded payloads and whose received_chunks count has
    grown by the number of chunks. -/
theorem chunkResults_data_run (id : String) (datas : List String) :
    ∀ (st : BufferMap) (ipm : InProgressMessage), lookupBuf st id = some ipm →
    ∀ rest : List (Option BloomChunk),
    ∃ st2 : BufferMap,
      chunkResults st (datas.map (fun d => some (mkData id d)) ++ rest)
        = datas.map (fun _ => (ChunkResult.INCOMPLETE, (none : Option (List Nat))))
            ++ chunkResults st2 rest
      ∧ lookupBuf st2 id = some
          ⟨ipm.buffer ++ (datas.map (fun d => base64_decode d.toList)).flatten,
           ipm.total_chunks, ipm.received_chunks + datas.length, ipm.expected_size⟩ := by
  induction datas with
  | nil =>
    intro st ipm hlk rest
    refine ⟨st, by simp, ?_⟩
    simpa using hlk
  | cons d ds ih =>
    intro st ipm hlk rest
    have hd := process_chunk_mkData st id d ipm hlk
    have hlk1 := lookupBuf_insertBuf_self st id
      (⟨ipm.buffer ++ base64_decode d.toList, ipm.total_chunks,
        ipm.received_chunks + 1, ipm.expected_size⟩ : InProgressMessage)
    obtain ⟨st2, heq, hlk2⟩ := ih _ _ hlk1 rest
    refine ⟨st2, ?_, ?_⟩
    · rw [List.map_cons, List.cons_append, chunkResults_cons, hd]
      simp only [List.map_cons, List.cons_append]
      rw [heq]
    · rw [hlk2]
      simp only [Option.some.injEq, InProgressMessage.mk.injEq, List.map_cons,
        List.flatten_cons, List.length_cons, List.append_assoc]
      refine ⟨trivial, trivial, ?_, trivial⟩
      omega

/-- C1: for every byte sequence B and well-formed split of B into a header,
    N data chunks whose base64-decoded payloads concatenate to B in order,
    and a footer carrying the lowercase hex SHA-256 of B, feeding the chunks
    to process_chunk in order (same message_id, nothing interleaved for that
    id) returns INCOMPLETE for the header and every data chunk and
    COMPLETE_VALID for the footer with output exactly B. -/
theorem C1_chunk_roundtrip (st0 : BufferMap) (id : String) (tc ts : Nat)
    (datas : List String) (B : List Nat) (cs : String)
    (hB : (datas.map (fun d => base64_decode d.toList)).flatten = B)
    (hcs : cs = calculate_sha256 B) :
    chunkResults st0
        (some (mkHeader id tc ts)
          :: (datas.map (fun d => some (mkData id d)) ++ [some (mkFooter id cs)]))
      = (ChunkResult.INCOMPLETE, none)
          :: (datas.map (fun _ => (ChunkResult.INCOMPLETE, none))
              ++ [(ChunkResult.COMPLETE_VALID, some B)]) := by
  rw [chunkResults_cons, process_chunk_mkHeader]
  have hlk0 : lookupBuf (insertBuf st0 id ⟨[], tc, 0, ts⟩) id
      = some (⟨[], tc, 0, ts⟩ : InProgressMessage) :=
    lookupBuf_insertBuf_self st0 id _
  obtain ⟨st2, heq, hlk2⟩ :=
    chunkResults_data_run id datas _ _ hlk0 [some (mkFooter id cs)]
  simp only [ChunkOutcome.result, ChunkOutcome.out_complete_msg, ChunkOutcome.state]
  rw [heq]
  have hbuf : ([] : List Nat) ++ (datas.map (fun d => base64_decode d.toList)).flatten = B := by
    simpa using hB
  rw [hbuf] at hlk2
  have hf := process_chunk_mkFooter st2 id cs _ hlk2
  rw [chunkResults_cons, hf]
  rw [hcs]
  simp [chunkResults]

/-- C1 witness: the two-byte payload "hi" split into one data chunk "aGk="
    with the lowercase hex SHA-256 of "hi" in the footer. -/
theorem C1_chunk_roundtrip_witness :
    chunkResults []
        (some (mkHeader "m" 1 2)
          :: (["aGk="].map (fun d => some (mkData "m" d)) ++ [some (mkFooter "m"
              "8f434346648f6b96df89dda901c5176b10a6d83961dd3c1ac88b59b2dc327aa4")]))
      = (ChunkResult.INCOMPLETE, none)
          :: (["aGk="].map (fun _ => (ChunkResult.INCOMPLETE, none))
              ++ [(ChunkResult.COMPLETE_VALID, some [104, 105])]) :=
  C1_chunk_roundtrip [] "m" 1 2 ["aGk="] [104, 105]
    "8f434346648f6b96df89dda901c5176b10a6d83961dd3c1ac88b59b2dc327aa4"
    (by decide) (by decide)

/-! ## Queue lemmas and C3 -/

theorem flush_pending_fst (q : List String) : (flush_pending q).1 = q := by
  induction q with
  | nil => rfl
  | cons m rest ih => simp [flush_pending, ih]

theorem enqueue_all_take (ms : List String) :
    ∀ q : List String, q.length ≤ MAX_QUEUED_MESSAGES →
    enqueue_all q ms = (q ++ ms).take MAX_QUEUED_MESSAGES := by
  induction ms with
  | nil =>
    intro q h
    simp [enqueue_all, List.take_of_length_le h]
  | cons m rest ih =>
    intro q h
    rw [show enqueue_all q (m :: rest) = enqueue_all (enqueue_pending q m).1 rest from rfl]
    by_cases hlt : q.length < MAX_QUEUED_MESSAGES
    · have hf : (enqueue_pending q m).1 = q ++ [m] := by
        unfold enqueue_pending
        rw [if_pos hlt]
      have hlen : (q ++ [m]).length ≤ MAX_QUEUED_MESSAGES := by
        simp only [List.length_append, List.length_cons, List.length_nil]
        omega
      rw [hf, ih (q ++ [m]) hlen]
      simp
    · have hfull : q.length = MAX_QUEUED_MESSAGES := by omega
      have hf : (enqueue_pending q m).1 = q := by
        unfold enqueue_pending
        rw [if_neg hlt]
      rw [hf, ih q h, ← hfull, List.take_left, List.take_left]

/-- C3: with no backend connection, enqueueing capacity+1 messages (capacity
    = 500) retains exactly the first 500 in arrival order, rejects the
    newest, and a subsequent flush forwards exactly the retained messages in
    their original FIFO order. -/
theorem C3_queue_bound (first : List String) (last : String)
    (h : first.length = MAX_QUEUED_MESSAGES) :
    enqueue_all [] (first ++ [last]) = first
    ∧ (enqueue_pending (enqueue_all [] first) last).2 = false
    ∧ (flush_pending (enqueue_all [] (first ++ [last]))).1 = first := by
  have h1 : enqueue_all [] (first ++ [last]) = first := by
    rw [enqueue_all_take (first ++ [last]) [] (by simp [MAX_QUEUED_MESSAGES])]
    rw [List.nil_append, ← h, List.take_left]
  have h2 : enqueue_all [] first = first := by
    rw [enqueue_all_take first [] (by simp [MAX_QUEUED_MESSAGES])]
    rw [List.nil_append]
    exact List.take_of_length_le (le_of_eq h)
  refine ⟨h1, ?_, ?_⟩
  · rw [h2]
    have hnlt : ¬ first.length < MAX_QUEUED_MESSAGES := by omega
    unfold enqueue_pending
    rw [if_neg hnlt]
  · rw [h1, flush_pending_fst]

/-- C3 witness: 501 concrete messages against the 500-capacity queue. -/
theorem C3_queue_bound_witness :
    enqueue_all [] (List.replicate 500 "a" ++ ["b"]) = List.replicate 500 "a"
    ∧ (enqueue_pending (enqueue_all [] (List.replicate 500 "a")) "b").2 = false
    ∧ (flush_pending (enqueue_all [] (List.replicate 500 "a" ++ ["b"]))).1
        = List.replicate 500 "a" :=
  C3_queue_bound (List.replicate 500 "a") "b" (by rw [List.length_replicate, MAX_QUEUED_MESSAGES])

/-! ## Identity lemmas, C7 and C10 -/

/-- C7: identity extraction is idempotent and first-writer-wins: from the
    unresolved initial state, a first message with non-empty candidates
    commits both ids and flips resolved; a second message with different
    non-empty candidates is a no-op that leaves the first identity and
    resolved = true unchanged. -/
theorem C7_identity_first_writer_wins (m1 m2 : IdMsg)
    (h1p : candidate_profile m1 ≠ "") (h1l : candidate_launch m1 ≠ "")
    (h2p : candidate_profile m2 ≠ "") (h2l : candidate_launch m2 ≠ "")
    (hdiff : candidate_profile m2 ≠ candidate_profile m1) :
    (try_extract_identity ⟨"", "", false⟩ m1).1 = true
    ∧ (try_extract_identity ⟨"", "", false⟩ m1).2
        = ⟨candidate_profile m1, candidate_launch m1, true⟩
    ∧ try_extract_identity (try_extract_identity ⟨"", "", false⟩ m1).2 m2
        = (false, (try_extract_identity ⟨"", "", false⟩ m1).2) := by
  have hfirst : try_extract_identity ⟨"", "", false⟩ m1
      = (true, ⟨candidate_profile m1, candidate_launch m1, true⟩) := by
    simp [try_extract_identity, h1p, h1l]
  rw [hfirst]
  refine ⟨rfl, rfl, ?_⟩
  simp [try_extract_identity, h2p, h2l, h1p, h1l]

/-- C7 witness: two concrete messages carrying different non-empty
    identities; only the first commits. -/
theorem C7_identity_first_writer_wins_witness :
    (try_extract_identity ⟨"", "", false⟩ ⟨some "p1", none, some "l1", none⟩).1 = true
    ∧ (try_extract_identity ⟨"", "", false⟩ ⟨some "p1", none, some "l1", none⟩).2
        = ⟨candidate_profile ⟨some "p1", none, some "l1", none⟩,
           candidate_launch ⟨some "p1", none, some "l1", none⟩, true⟩
    ∧ try_extract_identity
        (try_extract_identity ⟨"", "", false⟩ ⟨some "p1", none, some "l1", none⟩).2
        ⟨some "p2", none, some "l2", none⟩
      = (false, (try_extract_identity ⟨"", "", false⟩ ⟨some "p1", none, some "l1", none⟩).2) :=
  C7_identity_first_writer_wins
    ⟨some "p1", none, some "l1", none⟩ ⟨some "p2", none, some "l2", none⟩
    (by decide) (by decide) (by decide) (by decide) (by decide)

/-- A raw-text extraction attempt is a no-op once g_profile_id is set. -/
theorem raw_noop_of_profile_set (st : IdentityState) (hp : st.g_profile_id ≠ "")
    (s : List Char) :
    try_extract_profile_id_from_raw st s = (false, st) := by
  unfold try_extract_profile_id_from_raw
  cases hrc : raw_candidate s with
  | none => rfl
  | some cand =>
    by_cases hu : uuid_shaped cand
    · simp [hu, hp]
    · simp [hu]

/-- C10: when both --profile-id and --launch-id are given on the command
    line, main commits them and sets identity_resolved before the stdin loop
    starts, and every later in-band extraction attempt — structured or
    raw-text — is a no-op leaving the CLI-provided identity unchanged. -/
theorem C10_cli_identity (argv : List String)
    (hp : get_cli_argument argv "--profile-id" ≠ "")
    (hl : get_cli_argument argv "--launch-id" ≠ "") :
    (startup_identity argv).identity_resolved = true
    ∧ (startup_identity argv).g_profile_id = get_cli_argument argv "--profile-id"
    ∧ (startup_identity argv).g_launch_id = get_cli_argument argv "--launch-id"
    ∧ (∀ m : IdMsg, try_extract_identity (startup_identity argv) m
        = (false, startup_identity argv))
    ∧ (∀ s : List Char, try_extract_profile_id_from_raw (startup_identity argv) s
        = (false, startup_identity argv)) := by
  have hst : startup_identity argv
      = ⟨get_cli_argument argv "--profile-id", get_cli_argument argv "--launch-id", true⟩ := by
    simp [startup_identity, hp, hl]
  rw [hst]
  refine ⟨rfl, rfl, rfl, ?_, ?_⟩
  · intro m
    by_cases hc : candidate_profile m ≠ "" ∧ candidate_launch m ≠ ""
    · simp [try_extract_identity, hc, hp, hl]
    · simp [try_extract_identity, hc]
  · intro s
    exact raw_noop_of_profile_set _ hp s

/-- C10 witness: a concrete argv carrying both flags, a later structured
    message with a different identity, and a later raw text. -/
theorem C10_cli_identity_witness :
    (startup_identity ["bloom-host", "--profile-id", "p", "--launch-id", "l"]).identity_resolved
        = true
    ∧ try_extract_identity
        (startup_identity ["bloom-host", "--profile-id", "p", "--launch-id", "l"])
        ⟨some "q", none, some "r", none⟩
      = (false, startup_identity ["bloom-host", "--profile-id", "p", "--launch-id", "l"])
    ∧ try_extract_profile_id_from_raw
        (startup_identity ["bloom-host", "--profile-id", "p", "--launch-id", "l"])
        "x".toList
      = (false, startup_identity ["bloom-host", "--profile-id", "p", "--launch-id", "l"]) := by
  obtain ⟨h1, _, _, h4, h5⟩ :=
    C10_cli_identity ["bloom-host", "--profile-id", "p", "--launch-id", "l"]
      (by decide) (by decide)
  exact ⟨h1, h4 _, h5 _⟩

/-! ## Heartbeat: C8 -/

/-- C8 counterexample: with no backend connection a heartbeat tick still
    emits a message, and it is written to Chrome (the extension), not to the
    backend service. -/
theorem C8_counterexample :
    (heartbeat_tick false 0 3 4 5 1000).1
      = some (⟨"HEARTBEAT", 1, 1000, ⟨3, 4, 5⟩⟩, WriteDest.toChrome)
    ∧ WriteDest.toChrome ≠ WriteDest.toService := by
  exact ⟨rfl, by decide⟩

/-- C8 (amended): every heartbeat tick — whether or not a backend connection
    exists — emits exactly one HEARTBEAT message via
    write_message_to_chrome (to the extension, not the backend) carrying the
    messages-sent and messages-received counters and the pending-queue
    depth, plus a sequence number and timestamp; the fixed interval is 10
    seconds; no handshake state is carried. -/
theorem C8_heartbeat_unconditional (b : Bool) (hb sent received q t : Nat) :
    heartbeat_tick b hb sent received q t
      = (some (⟨"HEARTBEAT", hb + 1, t, ⟨sent, received, q⟩⟩, WriteDest.toChrome), hb + 1)
    ∧ HEARTBEAT_INTERVAL_SEC = 10 :=
  ⟨rfl, rfl⟩

/-! ## Stdin frame-length check: C5 -/

theorem stdin_frame_rejected_iff (len : Nat) :
    stdin_frame_rejected len = true ↔ (len = 0 ∨ MAX_MESSAGE_SIZE < len) := by
  simp [stdin_frame_rejected, Nat.blt_eq]

/-- C5 counterexample: a frame whose declared length is 2,000,000 bytes —
    well above the ~1,020,000-byte bound the claim names — is not rejected:
    the stdin loop accepts it and hands it to handle_chrome_message, and no
    EXTENSION_ERROR report exists anywhere on this path. -/
theorem C5_counterexample :
    stdin_frame_rejected 2000000 = false
    ∧ stdin_frame_action 2000000 = StdinFrameAction.deliverToHandler := by
  decide

/-- C5 (amended): the stdin loop rejects a declared frame length iff it is 0
    or exceeds MAX_MESSAGE_SIZE = 50 MB (52,428,800 bytes); a rejected frame
    is only logged and skipped — nothing is reported to the backend — and
    anything between 1 byte and 50 MB is read and delivered to the handler. -/
theorem C5_oversize_check (len : Nat) :
    (stdin_frame_action len = StdinFrameAction.dropAndContinue
      ↔ (len = 0 ∨ MAX_MESSAGE_SIZE < len))
    ∧ MAX_MESSAGE_SIZE = 52428800 := by
  refine ⟨?_, rfl⟩
  rw [← stdin_frame_rejected_iff]
  unfold stdin_frame_action
  by_cases h : stdin_frame_rejected len = true
  · simp [h]
  · simp [h]

/-- C5 witness: 60 MB is dropped, 0 is dropped. -/
theorem C5_oversize_check_witness :
    stdin_frame_action 62914560 = StdinFrameAction.dropAndContinue
    ∧ stdin_frame_action 0 = StdinFrameAction.dropAndContinue :=
  ⟨((C5_oversize_check 62914560).1).mpr (Or.inr (by norm_num [MAX_MESSAGE_SIZE])),
   ((C5_oversize_check 0).1).mpr (Or.inl rfl)⟩

/-! ## Handshake machine: C2 -/

theorem hsRun_cons (s : HandshakeState) (e : HandshakeEvent) (rest : List HandshakeEvent) :
    hsRun s (e :: rest) = hsRun (hsStep s e) rest := rfl

theorem hsRun_confirmed_needs_backend (evs : List HandshakeEvent) :
    ∀ s : HandshakeState, hsRun s evs = HandshakeState.CONFIRMED →
      s ≠ HandshakeState.CONFIRMED → HandshakeEvent.backendEstablished ∈ evs := by
  induction evs with
  | nil =>
    intro s h hs
    exact absurd h hs
  | cons e rest ih =>
    intro s h hs
    rw [hsRun_cons] at h
    by_cases h2 : hsStep s e = HandshakeState.CONFIRMED
    · have he : e = HandshakeEvent.backendEstablished := by
        cases s <;> cases e <;> simp_all [hsStep]
      rw [he]
      exact List.mem_cons_self _ _
    · exact List.mem_cons_of_mem _ (ih _ h h2)

theorem hsRun_confirmed_needs_extready (evs : List HandshakeEvent) :
    ∀ s : HandshakeState, hsRun s evs = HandshakeState.CONFIRMED →
      s = HandshakeState.NONE → HandshakeEvent.recvExtensionReady ∈ evs := by
  induction evs with
  | nil =>
    intro s h hs
    subst hs
    exact absurd h (by decide)
  | cons e rest ih =>
    intro s h hs
    subst hs
    rw [hsRun_cons] at h
    by_cases he : e = HandshakeEvent.recvExtensionReady
    · rw [he]
      exact List.mem_cons_self _ _
    · have hstep : hsStep HandshakeState.NONE e = HandshakeState.NONE := by
        cases e <;> simp_all [hsStep]
      rw [hstep] at h
      exact List.mem_cons_of_mem _ (ih _ h rfl)

/-- C2: the handshake state is strictly monotonic — no input moves it
    backward along NONE, EXTENSION_READY, HOST_READY, CONFIRMED — and from
    the initial NONE state CONFIRMED is reachable only if the input sequence
    contains both an extension_ready reception and a successful backend
    connection. (Modelled from the spec: the HandshakeCoordinator is not
    present under src/.) -/
theorem C2_handshake_monotonic :
    (∀ (s : HandshakeState) (e : HandshakeEvent), hsRank s ≤ hsRank (hsStep s e))
    ∧ (∀ evs : List HandshakeEvent,
        hsRun HandshakeState.NONE evs = HandshakeState.CONFIRMED →
          HandshakeEvent.recvExtensionReady ∈ evs
          ∧ HandshakeEvent.backendEstablished ∈ evs) := by
  refine ⟨?_, ?_⟩
  · intro s e
    cases s <;> cases e <;> decide
  · intro evs h
    exact ⟨hsRun_confirmed_needs_extready evs _ h rfl,
           hsRun_confirmed_needs_backend evs _ h (by decide)⟩

/-- C2 witness: the canonical three-event trace reaches CONFIRMED and
    contains both required events. -/
theorem C2_handshake_monotonic_witness :
    hsRun HandshakeState.NONE
        [HandshakeEvent.recvExtensionReady, HandshakeEvent.sentHostReady,
         HandshakeEvent.backendEstablished] = HandshakeState.CONFIRMED
    ∧ (HandshakeEvent.recvExtensionReady
        ∈ [HandshakeEvent.recvExtensionReady, HandshakeEvent.sentHostReady,
           HandshakeEvent.backendEstablished]
      ∧ HandshakeEvent.backendEstablished
        ∈ [HandshakeEvent.recvExtensionReady, HandshakeEvent.sentHostReady,
           HandshakeEvent.backendEstablished]) :=
  ⟨by decide,
   C2_handshake_monotonic.2
     [HandshakeEvent.recvExtensionReady, HandshakeEvent.sentHostReady,
      HandshakeEvent.backendEstablished] (by decide)⟩

end BloomHost
